import Mathlib

/-!
# Verification of blockhost-provisioner-libvirt

Shallow embedding of the repository's core logic:

* `src/root-agent-actions/virsh.py` — the privileged action gateway
  (domain-name validation, `virsh define` path checks, simple virsh actions);
* `src/scripts/vm-create.py` — the provisioning saga (`main`) and its
  compensation routine (`_cleanup_partial_alloc`);
* `src/scripts/vm-gc.py` and `src/scripts/vm-resume.py` — the lifecycle
  manager entry points (both are unimplemented stubs in the source: their
  bodies only print fixed text).

External collaborators (the `blockhost.vm_db` store, the filesystem, the
root-agent transport, `cloud-localds`, `qemu-img`, `virsh`) are modelled as
explicit state (`Store`, `FS`) plus an oracle of success/failure outcomes
(`ExtOracle`), with every externally visible call recorded in an event trace.
-/

set_option maxRecDepth 40000

namespace Blockhost

/-! ## The action gateway: src/root-agent-actions/virsh.py -/

/-- Character class `[a-zA-Z0-9]` of the Python regex (ASCII alphanumerics). -/
def isAlnumAscii (c : Char) : Bool :=
  (('a' ≤ c && c ≤ 'z') || ('A' ≤ c && c ≤ 'Z') || ('0' ≤ c && c ≤ '9'))

/-- Character class `[a-zA-Z0-9._-]` of the Python regex. -/
def isDomainBodyChar (c : Char) : Bool :=
  isAlnumAscii c || c = '.' || c = '_' || c = '-'

/-- `DOMAIN_RE.match(s)` for `DOMAIN_RE = re.compile(r'^[a-zA-Z0-9][a-zA-Z0-9._-]{0,63}$')`
(src/root-agent-actions/virsh.py line 19), with Python `re` semantics: the
`$` anchor matches at the end of the string OR just before a single newline
at the end of the string, so a trailing `'\n'` is tolerated by the regex. -/
def DOMAIN_RE_match (s : String) : Bool :=
  let cs := s.data
  let core := match cs.getLast? with
    | some c => if c = '\n' then cs.dropLast else cs
    | none => cs
  match core with
  | [] => false
  | c :: rest => isAlnumAscii c && rest.length ≤ 63 && rest.all isDomainBodyChar

/-- The identifier grammar as the spec states it (alphanumeric first
character, at most 64 characters total, only alphanumerics, dot, underscore
and hyphen thereafter). Written from the spec's words, for comparison with
the code's `DOMAIN_RE_match`. -/
def specIdentifierGrammar (s : String) : Bool :=
  match s.data with
  | [] => false
  | c :: rest => isAlnumAscii c && rest.length ≤ 63 && rest.all isDomainBodyChar

/-- `validate_domain(params)`: returns the domain when the regex accepts it,
raises `ValueError` (modelled as `.error`) otherwise. A missing or
non-string `domain` param is modelled by passing the empty string, which the
regex rejects anyway. -/
def validate_domain (domain : String) : Except String String :=
  if DOMAIN_RE_match domain then Except.ok domain
  else Except.error ("Invalid domain name: " ++ domain)

/-- Outcome of `run(cmd, timeout)` in the root agent: return code plus
captured stdout/stderr, supplied by the environment. -/
structure RunOut where
  rc : Int
  out : String
  errOut : String
deriving Repr, DecidableEq

/-- Result dict returned by a gateway handler. -/
inductive GwResult
  | ok (output : String)
  | err (msg : String)
deriving Repr, DecidableEq

/-- A gateway handler either rejects before any external process, or issues
exactly one external command (recorded as its argv list). -/
structure GwOutcome where
  /-- the argv of the external process started, `none` when rejected before
  any external call -/
  spawned : Option (List String)
  result : GwResult
deriving Repr, DecidableEq

/-- `_handle_virsh_simple(params, subcommand, extra_args, timeout)`:
validates the domain, then runs `virsh <subcommand> <domain> <extra>`.
Validation failure raises before `run` is reached, so no process starts. -/
def handle_virsh_simple (domain : String) (subcommand : String)
    (extraArgs : List String) (world : RunOut) : GwOutcome :=
  match validate_domain domain with
  | Except.error e => { spawned := none, result := GwResult.err e }
  | Except.ok d =>
      let argv := ["virsh", subcommand, d] ++ extraArgs
      if world.rc ≠ 0 then
        { spawned := some argv
          result := GwResult.err (if world.errOut ≠ "" then world.errOut else world.out) }
      else
        { spawned := some argv, result := GwResult.ok world.out }

/-- `s.startswith(p)` of Python, as a structural character-list prefix test. -/
def strStarts (s p : String) : Bool :=
  p.data.isPrefixOf s.data

/-- Split a character list at `/` boundaries (accumulator holds the current
segment reversed). -/
def splitSlash (cs : List Char) (cur : List Char) : List String :=
  match cs with
  | [] => [String.mk cur.reverse]
  | c :: rest =>
      if c = '/' then String.mk cur.reverse :: splitSlash rest []
      else splitSlash rest (c :: cur)

/-- Join path segments with `/` separators. -/
def joinSlash (l : List String) : String :=
  l.foldl (fun acc s => acc ++ "/" ++ s) ""

/-- POSIX-style path resolution of the `..` and `.` segments of an absolute
path (what the real filesystem does when `os.path.isfile` or `virsh define`
opens the path). Purely lexical normalisation is enough here: the claims are
about `..` traversal, not symlinks. -/
def resolvePath (p : String) : String :=
  let segs := (splitSlash p.data []).foldl
    (fun acc seg =>
      if seg = "" || seg = "." then acc
      else if seg = ".." then acc.dropLast
      else acc ++ [seg]) []
  match segs with
  | [] => "/"
  | _ => joinSlash segs

/-- `os.path.isfile(p)` against our filesystem model: the real kernel
resolves `..` segments, so membership is checked on the resolved path. -/
def isfile (fsFiles : List String) (p : String) : Bool :=
  fsFiles.contains (resolvePath p)

/-- `handle_virsh_define(params)` (src/root-agent-actions/virsh.py lines
42-59): requires a non-empty `xml_path` that starts with the literal string
`/var/lib/blockhost/` and exists as a file, then runs `virsh define`.
Note the code checks `xml_path.startswith(...)` on the raw string — it never
resolves the path. -/
def handle_virsh_define (xml_path : String) (fsFiles : List String)
    (world : RunOut) : GwOutcome :=
  if xml_path = "" then
    { spawned := none, result := GwResult.err "xml_path is required" }
  else if ¬ strStarts xml_path "/var/lib/blockhost/" then
    { spawned := none, result := GwResult.err "xml_path must be under /var/lib/blockhost/" }
  else if ¬ isfile fsFiles xml_path then
    { spawned := none, result := GwResult.err ("XML file not found: " ++ xml_path) }
  else
    let argv := ["virsh", "define", xml_path]
    if world.rc ≠ 0 then
      { spawned := some argv
        result := GwResult.err (if world.errOut ≠ "" then world.errOut else world.out) }
    else
      { spawned := some argv, result := GwResult.ok world.out }

/-- `handle_virsh_undefine(params)`: validate the domain, optionally add
`--remove-all-storage`, run `virsh undefine`. -/
def handle_virsh_undefine (domain : String) (removeStorage : Bool)
    (world : RunOut) : GwOutcome :=
  match validate_domain domain with
  | Except.error e => { spawned := none, result := GwResult.err e }
  | Except.ok d =>
      let argv := ["virsh", "undefine", d] ++ (if removeStorage then ["--remove-all-storage"] else [])
      if world.rc ≠ 0 then
        { spawned := some argv
          result := GwResult.err (if world.errOut ≠ "" then world.errOut else world.out) }
      else
        { spawned := some argv, result := GwResult.ok world.out }

/-! ## Data model: VM records, the store, the filesystem -/

/-- `status` values of a VM record (spec §3; vm-create registers `active`,
the collision check compares against the literal string `destroyed`). -/
inductive VmStatus
  | provisioning
  | active
  | suspended
  | destroyed
deriving Repr, DecidableEq

/-- One row of the `blockhost.vm_db` store. `expiry` is an abstract
timestamp (comparison with "now" is all the code ever does with it). -/
structure VmRecord where
  name : String
  vmid : String
  ip : String
  ipv6 : String
  owner : String
  status : VmStatus
  expiry : Int
  nftTokenId : Nat
deriving Repr, DecidableEq

/-- The external store (`blockhost.vm_db`), modelled by its interface:
IPv4/IPv6 pools hand out their first free address, releases append back,
NFT token ids are reserved from a counter, failed reservations are listed. -/
structure Store where
  vms : List VmRecord
  freeIps : List String
  freeIpv6s : List String
  nextNftId : Nat
  failedNfts : List Nat
deriving Repr, DecidableEq

/-- `db.get_vm(name)`: the most recently registered record with that name. -/
def get_vm (st : Store) (name : String) : Option VmRecord :=
  st.vms.reverse.find? (fun r => r.name == name)

/-- Filesystem model: the per-VM artifact files and directories the saga
creates and deletes. (Ambient directory preparation — `mkdir -p` plus chmod
of the shared template/vm/cloud-init directories at vm-create.py lines
243-249 — is configuration of shared directories, not a per-VM artifact, and
is not tracked.) -/
structure FS where
  files : List String
  dirs : List String
deriving Repr, DecidableEq

/-- Every externally visible mutation the saga performs, in order. -/
inductive Event
  | allocIp (ip : String)
  | allocIpv6 (a : String)
  | reserveNft (n : Nat)
  | releaseIp (ip : String)
  | releaseIpv6 (a : String)
  | markNftFailed (n : Nat)
  | fsCreateDir (p : String)
  | fsWriteFile (p : String)
  | fsUnlink (p : String)
  | fsRmtree (p : String)
  | extCloudLocalds (iso : String)
  | extQemuImg (disk : String)
  | gatewayCall (action : String) (args : List String)
  | registerVm (name : String)
deriving Repr, DecidableEq

/-- The `allocated` dict of vm-create.py: the Allocation Ledger. Fields are
set exactly when the corresponding resource was claimed. -/
structure Ledger where
  name : String
  hasDb : Bool
  ip : Option String
  ipv6 : Option String
  nftTokenId : Option Nat
  cloudInitDir : Option String
  diskPath : Option String
  domainDefined : Bool
deriving Repr, DecidableEq

/-- Success/failure outcomes of every fallible external operation, supplied
by the environment (one saga run consults each at most once). -/
structure ExtOracle where
  renderOk : Bool
  cloudLocaldsOk : Bool
  qemuImgOk : Bool
  defineOk : Bool
  startOk : Bool
  routeOk : Bool
  registerOk : Bool
  unlinkDiskOk : Bool
  rmtreeOk : Bool
  releaseIpOk : Bool
  releaseIpv6Ok : Bool
  markNftOk : Bool
deriving Repr, DecidableEq

/-! ## The compensation routine: `_cleanup_partial_alloc` (vm-create.py 62-116) -/

/-- State threaded through cleanup and the saga. -/
structure World where
  fs : FS
  store : Store
  events : List Event
  errLog : List String
deriving Repr, DecidableEq

/-- Cleanup block 1 (vm-create.py 67-78): if the domain was defined, call
`virsh-destroy` then `virsh-undefine --remove-all-storage` via the root
agent, each in its own `try/except: pass`. The results are ignored, so only
the two call events are observable. -/
def cleanupDomainStep (L : Ledger) (w : World) : World :=
  if L.domainDefined then
    { w with events := w.events ++
        [Event.gatewayCall "virsh-destroy" [L.name],
         Event.gatewayCall "virsh-undefine" [L.name, "remove_storage"]] }
  else w

/-- Cleanup block 2 (vm-create.py 80-86): unlink the disk overlay if the
ledger has it and the file exists; an `OSError` is swallowed. -/
def cleanupDiskStep (L : Ledger) (o : ExtOracle) (w : World) : World :=
  match L.diskPath with
  | some d =>
      if w.fs.files.contains d then
        if o.unlinkDiskOk then
          { w with fs := { w.fs with files := w.fs.files.erase d }
                   events := w.events ++ [Event.fsUnlink d] }
        else { w with events := w.events ++ [Event.fsUnlink d] }
      else w
  | none => w

/-- Cleanup block 3 (vm-create.py 88-95): `shutil.rmtree` of the cloud-init
directory if present (removing the directory and every file inside it); an
`OSError` is swallowed. -/
def cleanupCiStep (L : Ledger) (o : ExtOracle) (w : World) : World :=
  match L.cloudInitDir with
  | some c =>
      if w.fs.dirs.contains c then
        if o.rmtreeOk then
          { w with fs := { dirs := w.fs.dirs.erase c
                           files := w.fs.files.filter (fun f => !(strStarts f (c ++ "/"))) }
                   events := w.events ++ [Event.fsRmtree c] }
        else { w with events := w.events ++ [Event.fsRmtree c] }
      else w
  | none => w

/-- Cleanup block 4 (vm-create.py 97-102): `db.release_ip(ip)`; any
exception is swallowed. -/
def cleanupIpStep (L : Ledger) (o : ExtOracle) (w : World) : World :=
  match L.ip with
  | some ip =>
      if L.hasDb then
        if o.releaseIpOk then
          { w with store := { w.store with freeIps := w.store.freeIps ++ [ip] }
                   events := w.events ++ [Event.releaseIp ip] }
        else { w with events := w.events ++ [Event.releaseIp ip] }
      else w
  | none => w

/-- Cleanup block 5 (vm-create.py 104-109): `db.release_ipv6(addr)`; any
exception is swallowed. -/
def cleanupIpv6Step (L : Ledger) (o : ExtOracle) (w : World) : World :=
  match L.ipv6 with
  | some a =>
      if L.hasDb then
        if o.releaseIpv6Ok then
          { w with store := { w.store with freeIpv6s := w.store.freeIpv6s ++ [a] }
                   events := w.events ++ [Event.releaseIpv6 a] }
        else { w with events := w.events ++ [Event.releaseIpv6 a] }
      else w
  | none => w

/-- Cleanup block 6 (vm-create.py 111-116): `db.mark_nft_failed(id)`; any
exception is swallowed. Python truthiness: a token id of 0 is skipped. -/
def cleanupNftStep (L : Ledger) (o : ExtOracle) (w : World) : World :=
  match L.nftTokenId with
  | some n =>
      if n ≠ 0 && L.hasDb then
        if o.markNftOk then
          { w with store := { w.store with failedNfts := w.store.failedNfts ++ [n] }
                   events := w.events ++ [Event.markNftFailed n] }
        else { w with events := w.events ++ [Event.markNftFailed n] }
      else w
  | none => w

/-- `_cleanup_partial_alloc(allocated)` (vm-create.py 62-116): the six blocks in
source order — domain, disk overlay, cloud-init directory, IPv4, IPv6, NFT
reservation. Each block is guarded only on its own ledger entry and runs
regardless of the outcomes of the previous blocks (each has its own
`try/except: pass`). The only stderr output is the single header line:
failures of individual release actions are swallowed silently, nothing more
is ever logged here. -/
def cleanup_partial_alloc (L : Ledger) (o : ExtOracle) (fs : FS) (st : Store) : World :=
  let w0 : World :=
    { fs := fs, store := st, events := []
      errLog := ["[vm-create] Cleaning up partial allocation for " ++ L.name ++ "..."] }
  cleanupNftStep L o (cleanupIpv6Step L o (cleanupIpStep L o
    (cleanupCiStep L o (cleanupDiskStep L o (cleanupDomainStep L w0)))))

/-! ## The provisioning saga: `main` of vm-create.py -/

def TEMPLATE_IMAGE : String := "/var/lib/blockhost/templates/blockhost-base.qcow2"

def VM_DISK_DIR : String := "/var/lib/blockhost/vms"

def CLOUD_INIT_DIR : String := "/var/lib/blockhost/cloud-init"

def USERNAME : String := "user"

/-- Command-line arguments of `blockhost-vm-create` that the model needs. -/
structure CreateArgs where
  name : String
  ownerWallet : String
  cpu : Nat
  memory : Nat
  disk : Nat
  apply : Bool
  cloudInitContent : Option String
  expiryDays : Nat
deriving Repr, DecidableEq

/-- Host configuration consulted before any mutation. -/
structure CreateEnv where
  dbConfigOk : Bool
  templateExists : Bool
  brokerAvailable : Bool
  bridge : String
deriving Repr, DecidableEq

/-- stdout of one run: exactly one JSON object is printed. -/
inductive Output
  | okJson (vmName ip ipv6 vmid : String) (nft : Nat) (username : String)
  | errJson (msg : String)
deriving Repr, DecidableEq

/-- Result of one `blockhost-vm-create` process. -/
structure RunResult where
  exitCode : Nat
  output : Output
  fs : FS
  store : Store
  events : List Event
  errLog : List String
deriving Repr, DecidableEq

/-- `fail(msg)` with no `allocated` argument: error JSON, exit 1, no
cleanup. -/
def failNoCleanup (msg : String) (fs : FS) (st : Store) (evs : List Event) : RunResult :=
  { exitCode := 1, output := Output.errJson msg, fs := fs, store := st
    events := evs, errLog := [] }

/-- `fail(msg, allocated)`: run `_cleanup_partial_alloc`, print the error JSON,
exit 1. -/
def failCleanup (msg : String) (L : Ledger) (o : ExtOracle) (fs : FS) (st : Store)
    (evs : List Event) : RunResult :=
  let w := cleanup_partial_alloc L o fs st
  { exitCode := 1, output := Output.errJson msg, fs := w.fs, store := w.store
    events := evs ++ w.events, errLog := w.errLog }

/-- The apply-mode tail of the saga (vm-create.py lines 303-458): cloud-init
rendering and ISO build, disk overlay creation, domain XML write,
define + start via the root agent, XML removal, best-effort IPv6 route,
database registration, success output. Entered with the allocations of
steps 2-4 already in the ledger `L`. -/
def create_vm_apply (args : CreateArgs) (env : CreateEnv) (o : ExtOracle)
    (ip ipv6 : String) (nft : Nat) (L : Ledger)
    (fs : FS) (st : Store) (evs : List Event) : RunResult :=
  let ciDir := CLOUD_INIT_DIR ++ "/" ++ args.name
  let userDataPath := ciDir ++ "/user-data"
  let ciIsoPath := ciDir ++ "/cidata.iso"
  let diskPath := VM_DISK_DIR ++ "/" ++ args.name ++ ".qcow2"
  let xmlPath := VM_DISK_DIR ++ "/" ++ args.name ++ ".xml"
  -- ci_dir.mkdir(parents=True, exist_ok=True); tracked in the ledger
  let fs1 : FS := { fs with dirs := fs.dirs ++ [ciDir] }
  let L1 := { L with cloudInitDir := some ciDir }
  let evs1 := evs ++ [Event.fsCreateDir ciDir]
  -- render cloud-init (only the template path can fail; a caller-supplied
  -- pre-rendered file is read directly)
  if args.cloudInitContent = none && !o.renderOk then
    failCleanup "Failed to render cloud-init" L1 o fs1 st evs1
  else
    -- user-data written, then cloud-localds builds the ISO
    let fs2 : FS := { fs1 with files := fs1.files ++ [userDataPath] }
    let evs2 := evs1 ++ [Event.fsWriteFile userDataPath, Event.extCloudLocalds ciIsoPath]
    if !o.cloudLocaldsOk then
      failCleanup "cloud-localds failed" L1 o fs2 st evs2
    else
      let fs3 : FS := { fs2 with files := fs2.files ++ [ciIsoPath] }
      -- qemu-img create: on success the overlay exists and enters the ledger
      let evs3 := evs2 ++ [Event.extQemuImg diskPath]
      if !o.qemuImgOk then
        failCleanup "qemu-img create failed" L1 o fs3 st evs3
      else
        let fs4 : FS := { fs3 with files := fs3.files ++ [diskPath] }
        let L2 := { L1 with diskPath := some diskPath }
        -- domain XML written to disk (never entered into the ledger)
        let fs5 : FS := { fs4 with files := fs4.files ++ [xmlPath] }
        let evs4 := evs3 ++ [Event.fsWriteFile xmlPath]
        -- virsh-define via root agent
        let evs5 := evs4 ++ [Event.gatewayCall "virsh-define" [xmlPath]]
        if !o.defineOk then
          failCleanup "virsh-define failed" L2 o fs5 st evs5
        else
          let L3 := { L2 with domainDefined := true }
          -- virsh-start via root agent
          let evs6 := evs5 ++ [Event.gatewayCall "virsh-start" [args.name]]
          if !o.startOk then
            failCleanup "virsh-start failed" L3 o fs5 st evs6
          else
            -- xml_path.unlink(missing_ok=True): libvirt has its own copy now
            let fs6 : FS := { fs5 with files := fs5.files.erase xmlPath }
            let evs7 := evs6 ++ [Event.fsUnlink xmlPath]
            -- best-effort IPv6 route (failure only logs a warning)
            let evs8 := if ipv6 ≠ "" then
                evs7 ++ [Event.gatewayCall "ip6-route-add" [ipv6 ++ "/128", env.bridge]]
              else evs7
            -- register in database
            if !o.registerOk then
              failCleanup "Database registration failed" L3 o fs6 st evs8
            else
              let rec0 : VmRecord :=
                { name := args.name, vmid := args.name, ip := ip, ipv6 := ipv6
                  owner := args.ownerWallet, status := VmStatus.active
                  expiry := (args.expiryDays : Int), nftTokenId := nft }
              let st1 : Store := { st with vms := st.vms ++ [rec0] }
              { exitCode := 0
                output := Output.okJson args.name ip ipv6 args.name nft USERNAME
                fs := fs6, store := st1
                events := evs8 ++ [Event.registerVm args.name], errLog := [] }

/-- Steps 2-4 of the saga (IPv4, IPv6, NFT token id) and the dry-run/apply
split (vm-create.py lines 266-301). -/
def create_vm_alloc (args : CreateArgs) (env : CreateEnv) (o : ExtOracle)
    (fs : FS) (st : Store) : RunResult :=
  match st.freeIps with
  | [] => failNoCleanup "No IPv4 addresses available in pool" fs st []
  | ip :: restIps =>
      let st1 : Store := { st with freeIps := restIps }
      let evs1 := [Event.allocIp ip]
      let L1 : Ledger :=
        { name := args.name, hasDb := true, ip := some ip, ipv6 := none
          nftTokenId := none, cloudInitDir := none, diskPath := none
          domainDefined := false }
      -- step 3: IPv6 if the broker is configured; empty result is non-fatal
      let ipv6st :=
        if env.brokerAvailable then
          match st1.freeIpv6s with
          | [] => ("", st1, evs1)
          | a :: restA => (a, { st1 with freeIpv6s := restA }, evs1 ++ [Event.allocIpv6 a])
        else ("", st1, evs1)
      let ipv6 := ipv6st.1
      let st2 := ipv6st.2.1
      let evs2 := ipv6st.2.2
      let L2 := if ipv6 ≠ "" then { L1 with ipv6 := some ipv6 } else L1
      -- step 4: NFT token id reservation
      let nft := st2.nextNftId
      let st3 : Store := { st2 with nextNftId := st2.nextNftId + 1 }
      let evs3 := evs2 ++ [Event.reserveNft nft]
      let L3 := { L2 with nftTokenId := some nft }
      if !args.apply then
        { exitCode := 0
          output := Output.okJson args.name ip ipv6 args.name nft USERNAME
          fs := fs, store := st3, events := evs3, errLog := [] }
      else
        create_vm_apply args env o ip ipv6 nft L3 fs st3 evs3

/-- `main` of vm-create.py: prerequisites, collision guards, then steps 2-4
and the dry-run/apply split. -/
def create_vm (args : CreateArgs) (env : CreateEnv) (o : ExtOracle)
    (fs : FS) (st : Store) : RunResult :=
  let diskPath := VM_DISK_DIR ++ "/" ++ args.name ++ ".qcow2"
  if !env.dbConfigOk then
    failNoCleanup "Config not found: /etc/blockhost/db.yaml (run wizard first)" fs st []
  else if !env.templateExists then
    failNoCleanup ("Template image not found: " ++ TEMPLATE_IMAGE) fs st []
  else if fs.files.contains diskPath then
    failNoCleanup ("Disk already exists: " ++ diskPath) fs st []
  else
    match get_vm st args.name with
    | some r =>
        if r.status ≠ VmStatus.destroyed then
          failNoCleanup ("VM already exists in database: " ++ args.name) fs st []
        else create_vm_alloc args env o fs st
    | none => create_vm_alloc args env o fs st

/-! ## Lifecycle manager: vm-gc.py and vm-resume.py

Both scripts are unimplemented stubs in the source: their `main` bodies
consist of a `TODO` comment and fixed prints. The embeddings below reproduce
exactly that behaviour. -/

/-- CLI arguments of `blockhost-vm-gc`. -/
structure GcArgs where
  execute : Bool
  suspendOnly : Bool
  destroyOnly : Bool
  graceDays : Option Nat
deriving Repr, DecidableEq

/-- Result of one `blockhost-vm-gc` process. -/
structure GcResult where
  exitCode : Nat
  stdoutLines : List String
  store : Store
  events : List Event
deriving Repr, DecidableEq

/-- `main` of vm-gc.py (lines 21-41). The body after argument parsing is a
TODO stub: it prints fixed candidate counts of 0 and, without `--execute`, a
dry-run note. It never consults the store, never issues a gateway action and
never changes any record, whatever the arguments and the current time. -/
def vm_gc (args : GcArgs) (_nowTime : Int) (st : Store) : GcResult :=
  { exitCode := 0
    stdoutLines := ["Suspend: 0 candidates", "Destroy: 0 candidates"] ++
      (if !args.execute then ["(dry-run - use --execute to apply)"] else [])
    store := st
    events := [] }

/-- CLI arguments of `blockhost-vm-resume`. -/
structure ResumeArgs where
  name : String
  extendDays : Option Nat
  dryRun : Bool
deriving Repr, DecidableEq

/-- Result of one `blockhost-vm-resume` process. -/
structure ResumeResult where
  exitCode : Nat
  stderrLines : List String
  store : Store
  events : List Event
deriving Repr, DecidableEq

/-- `main` of vm-resume.py (lines 14-30). The body after argument parsing is
a TODO stub: it prints `ERROR: not yet implemented` to stderr and exits 1.
It never consults the store, never issues a gateway action and never changes
any record, whatever the arguments and the target record status. -/
def vm_resume (_args : ResumeArgs) (st : Store) : ResumeResult :=
  { exitCode := 1
    stderrLines := ["ERROR: not yet implemented"]
    store := st
    events := [] }

/-! ## Lifecycle operation sequences (for the state-machine invariant) -/

/-- One CLI invocation against the shared store. -/
inductive LifecycleOp
  | createOp (args : CreateArgs) (env : CreateEnv) (o : ExtOracle) (fs : FS)
  | gcOp (args : GcArgs) (nowTime : Int)
  | resumeOp (args : ResumeArgs)

/-- Effect of one lifecycle operation on the shared store. -/
def applyOp : LifecycleOp → Store → Store
  | LifecycleOp.createOp a e o fs, st => (create_vm a e o fs st).store
  | LifecycleOp.gcOp a t, st => (vm_gc a t st).store
  | LifecycleOp.resumeOp a, st => (vm_resume a st).store

/-- Run a sequence of lifecycle operations left to right. -/
def runOps (st : Store) (ops : List LifecycleOp) : Store :=
  ops.foldl (fun s op => applyOp op s) st

/-! ## Concrete fixtures used by witnesses and counterexamples -/

/-- `a` occurs strictly before `b` in `l` (both present). -/
def occursBefore (a b : Event) (l : List Event) : Prop :=
  a ∈ l ∧ b ∈ l ∧ l.indexOf a < l.indexOf b

instance (a b : Event) (l : List Event) : Decidable (occursBefore a b l) := by
  unfold occursBefore
  infer_instance

/-- An environment in which every external operation succeeds. -/
def oracleAllOk : ExtOracle :=
  { renderOk := true, cloudLocaldsOk := true, qemuImgOk := true, defineOk := true
    startOk := true, routeOk := true, registerOk := true, unlinkDiskOk := true
    rmtreeOk := true, releaseIpOk := true, releaseIpv6Ok := true, markNftOk := true }

/-- Standard host environment: configuration present, template built, no
IPv6 broker. -/
def envStd : CreateEnv :=
  { dbConfigOk := true, templateExists := true, brokerAvailable := false, bridge := "br0" }

/-- `blockhost-vm-create web01 --owner-wallet 0xabc --apply` with defaults. -/
def argsWeb01Apply : CreateArgs :=
  { name := "web01", ownerWallet := "0xabc", cpu := 1, memory := 2048, disk := 20
    apply := true, cloudInitContent := none, expiryDays := 30 }

/-- The same invocation without `--apply` (dry run). -/
def argsWeb01Dry : CreateArgs := { argsWeb01Apply with apply := false }

/-- A fresh store whose next free IPv4 is 10.0.0.5. -/
def poolStore : Store :=
  { vms := [], freeIps := ["10.0.0.5", "10.0.0.6"], freeIpv6s := []
    nextNftId := 7, failedNfts := [] }

/-- A store whose IPv4 pool no longer holds 10.0.0.5 (it was allocated). -/
def drainedStore : Store :=
  { vms := [], freeIps := ["10.0.0.9"], freeIpv6s := [], nextNftId := 8, failedNfts := [] }

/-- A fully populated Allocation Ledger for `web01`. -/
def ledgerFullWeb01 : Ledger :=
  { name := "web01", hasDb := true, ip := some "10.0.0.5", ipv6 := some "fd00::5"
    nftTokenId := some 7, cloudInitDir := some "/var/lib/blockhost/cloud-init/web01"
    diskPath := some "/var/lib/blockhost/vms/web01.qcow2", domainDefined := true }

/-- The filesystem at the moment the fully populated ledger exists. -/
def fsFullWeb01 : FS :=
  { files := ["/var/lib/blockhost/vms/web01.qcow2"]
    dirs := ["/var/lib/blockhost/cloud-init/web01"] }

/-- An `active` record for `web01` whose expiry (50) is already in the past
relative to the reference time 100 used in the garbage-collection claims. -/
def web01Active : VmRecord :=
  { name := "web01", vmid := "web01", ip := "10.0.0.5", ipv6 := "", owner := "0xabc"
    status := VmStatus.active, expiry := 50, nftTokenId := 7 }

/-- The same record `suspended`. -/
def web01Suspended : VmRecord := { web01Active with status := VmStatus.suspended }

/-- A store holding only the expired `active` record. -/
def activeStore : Store :=
  { vms := [web01Active], freeIps := [], freeIpv6s := [], nextNftId := 8, failedNfts := [] }

/-- A store holding only the `suspended` record. -/
def suspendedStore : Store :=
  { vms := [web01Suspended], freeIps := [], freeIpv6s := [], nextNftId := 8, failedNfts := [] }

/-! ## Lemmas about the cleanup pipeline -/

theorem cleanupDomainStep_store (L : Ledger) (w : World) :
    (cleanupDomainStep L w).store = w.store := by
  unfold cleanupDomainStep; split <;> rfl

theorem cleanupDomainStep_fs (L : Ledger) (w : World) :
    (cleanupDomainStep L w).fs = w.fs := by
  unfold cleanupDomainStep; split <;> rfl

theorem cleanupDomainStep_errLog (L : Ledger) (w : World) :
    (cleanupDomainStep L w).errLog = w.errLog := by
  unfold cleanupDomainStep; split <;> rfl

theorem cleanupDomainStep_events_ext (L : Ledger) (w : World) :
    ∃ e, (cleanupDomainStep L w).events = w.events ++ e := by
  unfold cleanupDomainStep; split
  · exact ⟨_, rfl⟩
  · exact ⟨[], by simp⟩

theorem cleanupDiskStep_store (L : Ledger) (o : ExtOracle) (w : World) :
    (cleanupDiskStep L o w).store = w.store := by
  unfold cleanupDiskStep
  rcases hL : L.diskPath with _ | d <;> simp only [hL]
  split
  · split <;> rfl
  · rfl

theorem cleanupDiskStep_dirs (L : Ledger) (o : ExtOracle) (w : World) :
    (cleanupDiskStep L o w).fs.dirs = w.fs.dirs := by
  unfold cleanupDiskStep
  rcases hL : L.diskPath with _ | d <;> simp only [hL]
  split
  · split <;> rfl
  · rfl

theorem cleanupDiskStep_errLog (L : Ledger) (o : ExtOracle) (w : World) :
    (cleanupDiskStep L o w).errLog = w.errLog := by
  unfold cleanupDiskStep
  rcases hL : L.diskPath with _ | d <;> simp only [hL]
  split
  · split <;> rfl
  · rfl

theorem cleanupDiskStep_files_sub (L : Ledger) (o : ExtOracle) (w : World) (p : String) :
    p ∈ (cleanupDiskStep L o w).fs.files → p ∈ w.fs.files := by
  unfold cleanupDiskStep
  rcases hL : L.diskPath with _ | d <;> simp only [hL]
  · exact fun h => h
  · split
    · split
      · exact fun h => List.mem_of_mem_erase h
      · exact fun h => h
    · exact fun h => h

theorem cleanupCiStep_store (L : Ledger) (o : ExtOracle) (w : World) :
    (cleanupCiStep L o w).store = w.store := by
  unfold cleanupCiStep
  rcases hL : L.cloudInitDir with _ | c <;> simp only [hL]
  split
  · split <;> rfl
  · rfl

theorem cleanupCiStep_errLog (L : Ledger) (o : ExtOracle) (w : World) :
    (cleanupCiStep L o w).errLog = w.errLog := by
  unfold cleanupCiStep
  rcases hL : L.cloudInitDir with _ | c <;> simp only [hL]
  split
  · split <;> rfl
  · rfl

theorem cleanupCiStep_files_sub (L : Ledger) (o : ExtOracle) (w : World) (p : String) :
    p ∈ (cleanupCiStep L o w).fs.files → p ∈ w.fs.files := by
  unfold cleanupCiStep
  rcases hL : L.cloudInitDir with _ | c <;> simp only [hL]
  · exact fun h => h
  · split
    · split
      · exact fun h => List.mem_of_mem_filter h
      · exact fun h => h
    · exact fun h => h

theorem cleanupIpStep_fs (L : Ledger) (o : ExtOracle) (w : World) :
    (cleanupIpStep L o w).fs = w.fs := by
  unfold cleanupIpStep
  rcases hL : L.ip with _ | ip <;> simp only [hL]
  split
  · split <;> rfl
  · rfl

theorem cleanupIpStep_errLog (L : Ledger) (o : ExtOracle) (w : World) :
    (cleanupIpStep L o w).errLog = w.errLog := by
  unfold cleanupIpStep
  rcases hL : L.ip with _ | ip <;> simp only [hL]
  split
  · split <;> rfl
  · rfl

theorem cleanupIpStep_vms (L : Ledger) (o : ExtOracle) (w : World) :
    (cleanupIpStep L o w).store.vms = w.store.vms := by
  unfold cleanupIpStep
  rcases hL : L.ip with _ | ip <;> simp only [hL]
  split
  · split <;> rfl
  · rfl

theorem cleanupIpv6Step_fs (L : Ledger) (o : ExtOracle) (w : World) :
    (cleanupIpv6Step L o w).fs = w.fs := by
  unfold cleanupIpv6Step
  rcases hL : L.ipv6 with _ | a <;> simp only [hL]
  split
  · split <;> rfl
  · rfl

theorem cleanupIpv6Step_errLog (L : Ledger) (o : ExtOracle) (w : World) :
    (cleanupIpv6Step L o w).errLog = w.errLog := by
  unfold cleanupIpv6Step
  rcases hL : L.ipv6 with _ | a <;> simp only [hL]
  split
  · split <;> rfl
  · rfl

theorem cleanupIpv6Step_vms (L : Ledger) (o : ExtOracle) (w : World) :
    (cleanupIpv6Step L o w).store.vms = w.store.vms := by
  unfold cleanupIpv6Step
  rcases hL : L.ipv6 with _ | a <;> simp only [hL]
  split
  · split <;> rfl
  · rfl

theorem cleanupIpv6Step_freeIps (L : Ledger) (o : ExtOracle) (w : World) :
    (cleanupIpv6Step L o w).store.freeIps = w.store.freeIps := by
  unfold cleanupIpv6Step
  rcases hL : L.ipv6 with _ | a <;> simp only [hL]
  split
  · split <;> rfl
  · rfl

theorem cleanupNftStep_fs (L : Ledger) (o : ExtOracle) (w : World) :
    (cleanupNftStep L o w).fs = w.fs := by
  unfold cleanupNftStep
  rcases hL : L.nftTokenId with _ | n <;> simp only [hL]
  split
  · split <;> rfl
  · rfl

theorem cleanupNftStep_errLog (L : Ledger) (o : ExtOracle) (w : World) :
    (cleanupNftStep L o w).errLog = w.errLog := by
  unfold cleanupNftStep
  rcases hL : L.nftTokenId with _ | n <;> simp only [hL]
  split
  · split <;> rfl
  · rfl

theorem cleanupNftStep_vms (L : Ledger) (o : ExtOracle) (w : World) :
    (cleanupNftStep L o w).store.vms = w.store.vms := by
  unfold cleanupNftStep
  rcases hL : L.nftTokenId with _ | n <;> simp only [hL]
  split
  · split <;> rfl
  · rfl

theorem cleanupNftStep_freeIps (L : Ledger) (o : ExtOracle) (w : World) :
    (cleanupNftStep L o w).store.freeIps = w.store.freeIps := by
  unfold cleanupNftStep
  rcases hL : L.nftTokenId with _ | n <;> simp only [hL]
  split
  · split <;> rfl
  · rfl

theorem cleanupNftStep_freeIpv6s (L : Ledger) (o : ExtOracle) (w : World) :
    (cleanupNftStep L o w).store.freeIpv6s = w.store.freeIpv6s := by
  unfold cleanupNftStep
  rcases hL : L.nftTokenId with _ | n <;> simp only [hL]
  split
  · split <;> rfl
  · rfl

/-- The compensation routine never touches the VM records of the store. -/
theorem cleanup_partial_vms (L : Ledger) (o : ExtOracle) (fs : FS) (st : Store) :
    (cleanup_partial_alloc L o fs st).store.vms = st.vms := by
  unfold cleanup_partial_alloc
  rw [cleanupNftStep_vms, cleanupIpv6Step_vms, cleanupIpStep_vms,
    cleanupCiStep_store, cleanupDiskStep_store, cleanupDomainStep_store]

/-- The only stderr line the compensation routine ever emits is the fixed
header; in particular no individual release failure is ever logged. -/
theorem cleanup_partial_errLog (L : Ledger) (o : ExtOracle) (fs : FS) (st : Store) :
    (cleanup_partial_alloc L o fs st).errLog =
      ["[vm-create] Cleaning up partial allocation for " ++ L.name ++ "..."] := by
  unfold cleanup_partial_alloc
  rw [cleanupNftStep_errLog, cleanupIpv6Step_errLog, cleanupIpStep_errLog,
    cleanupCiStep_errLog, cleanupDiskStep_errLog, cleanupDomainStep_errLog]

/-- A successfully released IPv4 address is back in the free pool. -/
theorem cleanupIpStep_mem (L : Ledger) (o : ExtOracle) (w : World) (ip : String)
    (hip : L.ip = some ip) (hdb : L.hasDb = true) (hok : o.releaseIpOk = true) :
    ip ∈ (cleanupIpStep L o w).store.freeIps := by
  unfold cleanupIpStep
  simp only [hip, hdb, hok, if_true]
  simp

theorem cleanupIpv6Step_mem (L : Ledger) (o : ExtOracle) (w : World) (a : String)
    (ha : L.ipv6 = some a) (hdb : L.hasDb = true) (hok : o.releaseIpv6Ok = true) :
    a ∈ (cleanupIpv6Step L o w).store.freeIpv6s := by
  unfold cleanupIpv6Step
  simp only [ha, hdb, hok, if_true]
  simp

theorem cleanupNftStep_mem (L : Ledger) (o : ExtOracle) (w : World) (n : Nat)
    (hn : L.nftTokenId = some n) (hnz : n ≠ 0) (hdb : L.hasDb = true)
    (hok : o.markNftOk = true) :
    n ∈ (cleanupNftStep L o w).store.failedNfts := by
  unfold cleanupNftStep
  simp only [hn, hdb, hok]
  simp [hnz]

/-- A successful unlink leaves the disk overlay absent from the filesystem. -/
theorem cleanupDiskStep_not_mem (L : Ledger) (o : ExtOracle) (w : World) (d : String)
    (hd : L.diskPath = some d) (hok : o.unlinkDiskOk = true)
    (hnd : w.fs.files.Nodup) :
    d ∉ (cleanupDiskStep L o w).fs.files := by
  unfold cleanupDiskStep
  simp only [hd]
  by_cases hc : w.fs.files.contains d = true
  · simp only [hc, if_true, hok]
    intro hmem
    exact absurd ((List.Nodup.mem_erase_iff hnd).mp hmem).1 (by simp)
  · simp only [hc, if_false, Bool.false_eq_true]
    intro hmem
    exact hc (List.elem_eq_true_of_mem hmem)

/-- A successful rmtree leaves the cloud-init directory absent. -/
theorem cleanupCiStep_not_mem (L : Ledger) (o : ExtOracle) (w : World) (c : String)
    (hc : L.cloudInitDir = some c) (hok : o.rmtreeOk = true)
    (hnd : w.fs.dirs.Nodup) :
    c ∉ (cleanupCiStep L o w).fs.dirs := by
  unfold cleanupCiStep
  simp only [hc]
  by_cases hm : w.fs.dirs.contains c = true
  · simp only [hm, if_true, hok]
    intro hmem
    exact absurd ((List.Nodup.mem_erase_iff hnd).mp hmem).1 (by simp)
  · simp only [hm, if_false, Bool.false_eq_true]
    intro hmem
    exact hm (List.elem_eq_true_of_mem hmem)

/-- Full pipeline: a successfully released IPv4 is back in the pool, whatever
the other ledger entries and the other release outcomes. -/
theorem cleanup_partial_ip_mem (L : Ledger) (o : ExtOracle) (fs : FS) (st : Store)
    (ip : String) (hip : L.ip = some ip) (hdb : L.hasDb = true)
    (hok : o.releaseIpOk = true) :
    ip ∈ (cleanup_partial_alloc L o fs st).store.freeIps := by
  unfold cleanup_partial_alloc
  rw [cleanupNftStep_freeIps, cleanupIpv6Step_freeIps]
  exact cleanupIpStep_mem L o _ ip hip hdb hok

theorem cleanup_partial_ipv6_mem (L : Ledger) (o : ExtOracle) (fs : FS) (st : Store)
    (a : String) (ha : L.ipv6 = some a) (hdb : L.hasDb = true)
    (hok : o.releaseIpv6Ok = true) :
    a ∈ (cleanup_partial_alloc L o fs st).store.freeIpv6s := by
  unfold cleanup_partial_alloc
  rw [cleanupNftStep_freeIpv6s]
  exact cleanupIpv6Step_mem L o _ a ha hdb hok

theorem cleanup_partial_nft_mem (L : Ledger) (o : ExtOracle) (fs : FS) (st : Store)
    (n : Nat) (hn : L.nftTokenId = some n) (hnz : n ≠ 0) (hdb : L.hasDb = true)
    (hok : o.markNftOk = true) :
    n ∈ (cleanup_partial_alloc L o fs st).store.failedNfts := by
  unfold cleanup_partial_alloc
  exact cleanupNftStep_mem L o _ n hn hnz hdb hok

/-- Full pipeline: a successfully unlinked disk overlay is absent afterward. -/
theorem cleanup_partial_disk_not_mem (L : Ledger) (o : ExtOracle) (fs : FS) (st : Store)
    (d : String) (hd : L.diskPath = some d) (hok : o.unlinkDiskOk = true)
    (hnd : fs.files.Nodup) :
    d ∉ (cleanup_partial_alloc L o fs st).fs.files := by
  unfold cleanup_partial_alloc
  rw [cleanupNftStep_fs, cleanupIpv6Step_fs, cleanupIpStep_fs]
  intro hmem
  have h2 := cleanupCiStep_files_sub L o _ d hmem
  have h3 : d ∉ (cleanupDiskStep L o (cleanupDomainStep L
      { fs := fs, store := st, events := []
        errLog := ["[vm-create] Cleaning up partial allocation for " ++ L.name ++ "..."] })).fs.files := by
    refine cleanupDiskStep_not_mem L o _ d hd hok ?_
    rw [cleanupDomainStep_fs]
    exact hnd
  exact h3 h2

/-- Full pipeline: a successfully removed cloud-init directory is absent. -/
theorem cleanup_partial_ci_not_mem (L : Ledger) (o : ExtOracle) (fs : FS) (st : Store)
    (c : String) (hc : L.cloudInitDir = some c) (hok : o.rmtreeOk = true)
    (hnd : fs.dirs.Nodup) :
    c ∉ (cleanup_partial_alloc L o fs st).fs.dirs := by
  unfold cleanup_partial_alloc
  rw [cleanupNftStep_fs, cleanupIpv6Step_fs, cleanupIpStep_fs]
  refine cleanupCiStep_not_mem L o _ c hc hok ?_
  rw [cleanupDiskStep_dirs, cleanupDomainStep_fs]
  exact hnd

/-- The exact event list of each cleanup block when it fires. -/
theorem cleanupDomainStep_events_def (L : Ledger) (w : World)
    (h : L.domainDefined = true) :
    (cleanupDomainStep L w).events = w.events ++
      [Event.gatewayCall "virsh-destroy" [L.name],
       Event.gatewayCall "virsh-undefine" [L.name, "remove_storage"]] := by
  unfold cleanupDomainStep
  simp [h]

theorem cleanupDiskStep_events_def (L : Ledger) (o : ExtOracle) (w : World) (d : String)
    (hd : L.diskPath = some d) (hm : w.fs.files.contains d = true) :
    (cleanupDiskStep L o w).events = w.events ++ [Event.fsUnlink d] := by
  unfold cleanupDiskStep
  simp only [hd, hm, if_true]
  split <;> rfl

theorem cleanupCiStep_events_def (L : Ledger) (o : ExtOracle) (w : World) (c : String)
    (hc : L.cloudInitDir = some c) (hm : w.fs.dirs.contains c = true) :
    (cleanupCiStep L o w).events = w.events ++ [Event.fsRmtree c] := by
  unfold cleanupCiStep
  simp only [hc, hm, if_true]
  split <;> rfl

theorem cleanupIpStep_events_def (L : Ledger) (o : ExtOracle) (w : World) (ip : String)
    (hip : L.ip = some ip) (hdb : L.hasDb = true) :
    (cleanupIpStep L o w).events = w.events ++ [Event.releaseIp ip] := by
  unfold cleanupIpStep
  simp only [hip, hdb, if_true]
  split <;> rfl

theorem cleanupIpv6Step_events_def (L : Ledger) (o : ExtOracle) (w : World) (a : String)
    (ha : L.ipv6 = some a) (hdb : L.hasDb = true) :
    (cleanupIpv6Step L o w).events = w.events ++ [Event.releaseIpv6 a] := by
  unfold cleanupIpv6Step
  simp only [ha, hdb, if_true]
  split <;> rfl

theorem cleanupNftStep_events_def (L : Ledger) (o : ExtOracle) (w : World) (n : Nat)
    (hn : L.nftTokenId = some n) (hnz : n ≠ 0) (hdb : L.hasDb = true) :
    (cleanupNftStep L o w).events = w.events ++ [Event.markNftFailed n] := by
  unfold cleanupNftStep
  simp only [hn, hdb, Bool.and_true]
  rw [if_pos (by simp [hnz])]
  split <;> rfl

/-- The exact compensation order on a fully populated ledger: domain destroy,
domain undefine (with storage removal), disk unlink, cloud-init removal,
IPv4 release, IPv6 release, NFT mark — for every combination of individual
release outcomes (best-effort independence: the list of attempted actions
does not depend on the oracle at all). -/
theorem cleanup_partial_events_full (L : Ledger) (o : ExtOracle) (fs : FS) (st : Store)
    (d c ip a : String) (n : Nat)
    (hdom : L.domainDefined = true)
    (hd : L.diskPath = some d) (hmf : fs.files.contains d = true)
    (hc : L.cloudInitDir = some c) (hmd : fs.dirs.contains c = true)
    (hip : L.ip = some ip) (ha : L.ipv6 = some a)
    (hn : L.nftTokenId = some n) (hnz : n ≠ 0) (hdb : L.hasDb = true) :
    (cleanup_partial_alloc L o fs st).events =
      [Event.gatewayCall "virsh-destroy" [L.name],
       Event.gatewayCall "virsh-undefine" [L.name, "remove_storage"],
       Event.fsUnlink d, Event.fsRmtree c,
       Event.releaseIp ip, Event.releaseIpv6 a, Event.markNftFailed n] := by
  unfold cleanup_partial_alloc
  rw [cleanupNftStep_events_def L o _ n hn hnz hdb,
    cleanupIpv6Step_events_def L o _ a ha hdb,
    cleanupIpStep_events_def L o _ ip hip hdb,
    cleanupCiStep_events_def L o _ c hc
      (by rw [cleanupDiskStep_dirs, cleanupDomainStep_fs]; exact hmd),
    cleanupDiskStep_events_def L o _ d hd
      (by rw [cleanupDomainStep_fs]; exact hmf),
    cleanupDomainStep_events_def L _ hdom]
  simp

/-! ## Lemmas about the saga's effect on VM records -/

theorem failCleanup_vms (msg : String) (L : Ledger) (o : ExtOracle) (fs : FS)
    (st : Store) (evs : List Event) :
    (failCleanup msg L o fs st evs).store.vms = st.vms :=
  cleanup_partial_vms L o fs st

theorem failNoCleanup_store (msg : String) (fs : FS) (st : Store) (evs : List Event) :
    (failNoCleanup msg fs st evs).store = st := rfl

/-- The apply tail either leaves the record list unchanged (every failure
path: compensation never touches records) or appends exactly the one newly
registered record. -/
theorem create_vm_apply_vms (args : CreateArgs) (env : CreateEnv) (o : ExtOracle)
    (ip ipv6 : String) (nft : Nat) (L : Ledger) (fs : FS) (st : Store)
    (evs : List Event) :
    (create_vm_apply args env o ip ipv6 nft L fs st evs).store.vms = st.vms ∨
    ∃ r, (create_vm_apply args env o ip ipv6 nft L fs st evs).store.vms = st.vms ++ [r] := by
  unfold create_vm_apply
  dsimp only
  repeat' split
  all_goals
    first
      | exact Or.inl (failCleanup_vms _ _ _ _ _ _)
      | exact Or.inr ⟨_, rfl⟩

/-- Steps 2-4 plus the dry-run/apply split: records unchanged or one
appended. -/
theorem create_vm_alloc_vms (args : CreateArgs) (env : CreateEnv) (o : ExtOracle)
    (fs : FS) (st : Store) :
    (create_vm_alloc args env o fs st).store.vms = st.vms ∨
    ∃ r, (create_vm_alloc args env o fs st).store.vms = st.vms ++ [r] := by
  unfold create_vm_alloc
  cases hf : st.freeIps with
  | nil => exact Or.inl rfl
  | cons ip rest =>
      by_cases hb : env.brokerAvailable
      · cases hv : st.freeIpv6s with
        | nil =>
            simp only [hb, hv, if_true]
            split
            · exact Or.inl rfl
            · exact create_vm_apply_vms ..
        | cons a restA =>
            simp only [hb, hv, if_true]
            split
            · exact Or.inl rfl
            · exact create_vm_apply_vms ..
      · simp only [hb, if_false]
        split
        · exact Or.inl rfl
        · exact create_vm_apply_vms ..

/-- One `vm-create` run either leaves the store's record list unchanged or
appends exactly one new record; it never modifies an existing record. -/
theorem create_vm_vms (args : CreateArgs) (env : CreateEnv) (o : ExtOracle)
    (fs : FS) (st : Store) :
    (create_vm args env o fs st).store.vms = st.vms ∨
    ∃ r, (create_vm args env o fs st).store.vms = st.vms ++ [r] := by
  unfold create_vm
  dsimp only
  split
  · exact Or.inl rfl
  · split
    · exact Or.inl rfl
    · split
      · exact Or.inl rfl
      · split
        · split
          · exact Or.inl rfl
          · exact create_vm_alloc_vms ..
        · exact create_vm_alloc_vms ..

/-- Every lifecycle operation preserves existing records pointwise (gc and
resume are stubs that never touch the store; create at most appends). -/
theorem applyOp_vms (op : LifecycleOp) (st : Store) :
    (applyOp op st).vms = st.vms ∨ ∃ r, (applyOp op st).vms = st.vms ++ [r] := by
  cases op with
  | createOp a e o fs => exact create_vm_vms a e o fs st
  | gcOp a t => exact Or.inl rfl
  | resumeOp a => exact Or.inl rfl

/-! ## Preservation of events and file membership through cleanup -/

theorem cleanupDiskStep_events_mem (L : Ledger) (o : ExtOracle) (w : World) (e : Event)
    (h : e ∈ w.events) : e ∈ (cleanupDiskStep L o w).events := by
  unfold cleanupDiskStep
  rcases hL : L.diskPath with _ | d <;> simp only [hL]
  · exact h
  · split
    · split <;> exact List.mem_append_left _ h
    · exact h

theorem cleanupCiStep_events_mem (L : Ledger) (o : ExtOracle) (w : World) (e : Event)
    (h : e ∈ w.events) : e ∈ (cleanupCiStep L o w).events := by
  unfold cleanupCiStep
  rcases hL : L.cloudInitDir with _ | c <;> simp only [hL]
  · exact h
  · split
    · split <;> exact List.mem_append_left _ h
    · exact h

theorem cleanupIpStep_events_mem (L : Ledger) (o : ExtOracle) (w : World) (e : Event)
    (h : e ∈ w.events) : e ∈ (cleanupIpStep L o w).events := by
  unfold cleanupIpStep
  rcases hL : L.ip with _ | ip <;> simp only [hL]
  · exact h
  · split
    · split <;> exact List.mem_append_left _ h
    · exact h

theorem cleanupIpv6Step_events_mem (L : Ledger) (o : ExtOracle) (w : World) (e : Event)
    (h : e ∈ w.events) : e ∈ (cleanupIpv6Step L o w).events := by
  unfold cleanupIpv6Step
  rcases hL : L.ipv6 with _ | a <;> simp only [hL]
  · exact h
  · split
    · split <;> exact List.mem_append_left _ h
    · exact h

theorem cleanupNftStep_events_mem (L : Ledger) (o : ExtOracle) (w : World) (e : Event)
    (h : e ∈ w.events) : e ∈ (cleanupNftStep L o w).events := by
  unfold cleanupNftStep
  rcases hL : L.nftTokenId with _ | n <;> simp only [hL]
  · exact h
  · split
    · split <;> exact List.mem_append_left _ h
    · exact h

/-- If the domain was defined, the compensation trace contains the
`virsh-destroy` and `virsh-undefine` gateway calls. -/
theorem cleanup_partial_domain_events (L : Ledger) (o : ExtOracle) (fs : FS) (st : Store)
    (h : L.domainDefined = true) :
    Event.gatewayCall "virsh-destroy" [L.name] ∈ (cleanup_partial_alloc L o fs st).events ∧
    Event.gatewayCall "virsh-undefine" [L.name, "remove_storage"] ∈
      (cleanup_partial_alloc L o fs st).events := by
  unfold cleanup_partial_alloc
  constructor <;>
    refine cleanupNftStep_events_mem _ _ _ _ (cleanupIpv6Step_events_mem _ _ _ _
      (cleanupIpStep_events_mem _ _ _ _ (cleanupCiStep_events_mem _ _ _ _
        (cleanupDiskStep_events_mem _ _ _ _ ?_)))) <;>
    rw [cleanupDomainStep_events_def L _ h] <;> simp

/-- A file that is neither the tracked disk overlay nor inside the tracked
cloud-init directory survives every cleanup outcome. -/
theorem cleanupDiskStep_files_mem (L : Ledger) (o : ExtOracle) (w : World) (p : String)
    (hp : p ∈ w.fs.files) (hne : ∀ d, L.diskPath = some d → p ≠ d) :
    p ∈ (cleanupDiskStep L o w).fs.files := by
  unfold cleanupDiskStep
  rcases hL : L.diskPath with _ | d <;> simp only [hL]
  · exact hp
  · split
    · split
      · exact (List.mem_erase_of_ne (hne d hL)).mpr hp
      · exact hp
    · exact hp

theorem cleanupCiStep_files_mem (L : Ledger) (o : ExtOracle) (w : World) (p : String)
    (hp : p ∈ w.fs.files)
    (hpp : ∀ c, L.cloudInitDir = some c → strStarts p (c ++ "/") = false) :
    p ∈ (cleanupCiStep L o w).fs.files := by
  unfold cleanupCiStep
  rcases hL : L.cloudInitDir with _ | c <;> simp only [hL]
  · exact hp
  · split
    · split
      · exact List.mem_filter.mpr ⟨hp, by rw [hpp c hL]; rfl⟩
      · exact hp
    · exact hp

/-- Full pipeline version of the two lemmas above. -/
theorem cleanup_partial_files_mem (L : Ledger) (o : ExtOracle) (fs : FS) (st : Store)
    (p : String) (hp : p ∈ fs.files)
    (hne : ∀ d, L.diskPath = some d → p ≠ d)
    (hpp : ∀ c, L.cloudInitDir = some c → strStarts p (c ++ "/") = false) :
    p ∈ (cleanup_partial_alloc L o fs st).fs.files := by
  unfold cleanup_partial_alloc
  rw [cleanupNftStep_fs, cleanupIpv6Step_fs, cleanupIpStep_fs]
  refine cleanupCiStep_files_mem _ _ _ _ ?_ hpp
  refine cleanupDiskStep_files_mem _ _ _ _ ?_ hne
  rw [cleanupDomainStep_fs]
  exact hp

/-- Cleanup never creates files: membership afterward implies membership
before. -/
theorem cleanup_partial_files_sub (L : Ledger) (o : ExtOracle) (fs : FS) (st : Store)
    (p : String) (hp : p ∈ (cleanup_partial_alloc L o fs st).fs.files) : p ∈ fs.files := by
  unfold cleanup_partial_alloc at hp
  rw [cleanupNftStep_fs, cleanupIpv6Step_fs, cleanupIpStep_fs] at hp
  have h2 := cleanupCiStep_files_sub L o _ p hp
  have h3 := cleanupDiskStep_files_sub L o _ p h2
  rw [cleanupDomainStep_fs] at h3
  exact h3

/-- Dry-run behaviour of steps 2-4: allocations performed and held, success
JSON printed with the allocated ip and vmid = name, exit 0, no filesystem or
store-record effect, and only allocation events in the trace. -/
theorem create_vm_alloc_dry (args : CreateArgs) (env : CreateEnv) (o : ExtOracle)
    (fs : FS) (st : Store) (ip : String) (restIps : List String)
    (hap : args.apply = false) (hpool : st.freeIps = ip :: restIps)
    (hnip : ip ∉ restIps) :
    (create_vm_alloc args env o fs st).exitCode = 0 ∧
    (∃ ipv6, (create_vm_alloc args env o fs st).output =
      Output.okJson args.name ip ipv6 args.name st.nextNftId USERNAME) ∧
    (create_vm_alloc args env o fs st).fs = fs ∧
    (create_vm_alloc args env o fs st).store.vms = st.vms ∧
    (create_vm_alloc args env o fs st).store.freeIps = restIps ∧
    ip ∉ (create_vm_alloc args env o fs st).store.freeIps ∧
    (∀ e ∈ (create_vm_alloc args env o fs st).events,
      (∃ x, e = Event.allocIp x) ∨ (∃ x, e = Event.allocIpv6 x) ∨
      (∃ x, e = Event.reserveNft x)) := by
  unfold create_vm_alloc
  simp only [hpool]
  by_cases hb : env.brokerAvailable
  · simp only [hb, if_true]
    cases hv : st.freeIpv6s with
    | nil =>
        rw [hap]
        refine ⟨rfl, ⟨"", rfl⟩, rfl, rfl, rfl, hnip, ?_⟩
        intro e he
        simp at he
        rcases he with rfl | rfl
        · exact Or.inl ⟨ip, rfl⟩
        · exact Or.inr (Or.inr ⟨st.nextNftId, rfl⟩)
    | cons a restA =>
        rw [hap]
        refine ⟨rfl, ⟨a, rfl⟩, rfl, rfl, rfl, hnip, ?_⟩
        intro e he
        simp at he
        rcases he with rfl | rfl | rfl
        · exact Or.inl ⟨ip, rfl⟩
        · exact Or.inr (Or.inl ⟨a, rfl⟩)
        · exact Or.inr (Or.inr ⟨st.nextNftId, rfl⟩)
  · simp only [Bool.not_eq_true] at hb
    rw [hb, hap]
    refine ⟨rfl, ⟨"", rfl⟩, rfl, rfl, rfl, hnip, ?_⟩
    intro e he
    simp at he
    rcases he with rfl | rfl
    · exact Or.inl ⟨ip, rfl⟩
    · exact Or.inr (Or.inr ⟨st.nextNftId, rfl⟩)

/-! ## Claims -/

/-- C3: the spec claims every `xml_path` that resolves outside
`/var/lib/blockhost/` — including paths escaping via `..` components — is
rejected before any virsh invocation. The code only checks
`xml_path.startswith('/var/lib/blockhost/')` on the raw string, so the path
`/var/lib/blockhost/../../../etc/passwd`, which resolves to `/etc/passwd`
(outside the approved prefix), passes both checks and `virsh define` is
invoked on it: a path-traversal hole at the declared trust boundary. -/
theorem C3_define_path_traversal :
    resolvePath "/var/lib/blockhost/../../../etc/passwd" = "/etc/passwd" ∧
    strStarts (resolvePath "/var/lib/blockhost/../../../etc/passwd")
      "/var/lib/blockhost/" = false ∧
    (handle_virsh_define "/var/lib/blockhost/../../../etc/passwd" ["/etc/passwd"]
        { rc := 0, out := "", errOut := "" }).spawned =
      some ["virsh", "define", "/var/lib/blockhost/../../../etc/passwd"] := by
  refine ⟨by decide, by decide, by decide⟩

/-- C4: the spec claims every domain value outside the identifier grammar
(alphanumeric start, ≤64 chars, only alphanumerics/dot/underscore/hyphen
thereafter) is rejected before any external process. The Python regex
`^[a-zA-Z0-9][a-zA-Z0-9._-]{0,63}$` accepts a trailing newline (in Python,
`$` also matches just before a final newline), so the value `"abc\n"` —
which is outside the grammar and contains a shell-sensitive control
character — is accepted and an external virsh process is started with it. -/
theorem C4_domain_newline_bypass :
    specIdentifierGrammar "abc\n" = false ∧
    ("abc\n".data.contains '\n') = true ∧
    DOMAIN_RE_match "abc\n" = true ∧
    (handle_virsh_simple "abc\n" "start" [] { rc := 0, out := "", errOut := "" }).spawned =
      some ["virsh", "start", "abc\n"] := by
  refine ⟨by decide, by decide, by decide, by decide⟩

/-- C5: the spec claims `gc --execute` shuts down an expired `active` VM via
the gateway and marks it `suspended`. The vm-gc.py body is a TODO stub: on a
store holding exactly the expired active record it reports fixed zero
counts, issues no gateway action, and leaves the record `active`. -/
theorem C5_gc_stub_does_nothing :
    web01Active.expiry < 100 ∧ web01Active.status = VmStatus.active ∧
    (vm_gc { execute := true, suspendOnly := false, destroyOnly := false, graceDays := none }
        100 activeStore).events = [] ∧
    (vm_gc { execute := true, suspendOnly := false, destroyOnly := false, graceDays := none }
        100 activeStore).store = activeStore ∧
    (vm_gc { execute := true, suspendOnly := false, destroyOnly := false, graceDays := none }
        100 activeStore).stdoutLines = ["Suspend: 0 candidates", "Destroy: 0 candidates"] := by
  refine ⟨by decide, by decide, by decide, by decide, by decide⟩

/-- C7: the spec claims `resume` on a suspended VM starts the domain via the
gateway, optionally extends expiry, and sets status `active` (and rejects
non-suspended VMs with a state-conflict error). The vm-resume.py body is a
TODO stub: even on a suspended VM it prints `ERROR: not yet implemented`,
exits 1, issues no gateway action and changes no record. -/
theorem C7_resume_stub_does_nothing :
    get_vm suspendedStore "web01" = some web01Suspended ∧
    web01Suspended.status = VmStatus.suspended ∧
    (vm_resume { name := "web01", extendDays := some 5, dryRun := false }
        suspendedStore).exitCode = 1 ∧
    (vm_resume { name := "web01", extendDays := some 5, dryRun := false }
        suspendedStore).events = [] ∧
    (vm_resume { name := "web01", extendDays := some 5, dryRun := false }
        suspendedStore).store = suspendedStore ∧
    (vm_resume { name := "web01", extendDays := some 5, dryRun := false }
        suspendedStore).stderrLines = ["ERROR: not yet implemented"] := by
  refine ⟨by decide, by decide, by decide, by decide, by decide, by decide⟩

/-- C2 counterexample: on a fully populated ledger the compensation trace
releases the IPv4 address strictly before the IPv6 address, refuting the
claimed order "release IPv6 and then IPv4". -/
theorem C2_counterexample :
    (cleanup_partial_alloc ledgerFullWeb01 oracleAllOk fsFullWeb01 drainedStore).events =
      [Event.gatewayCall "virsh-destroy" ["web01"],
       Event.gatewayCall "virsh-undefine" ["web01", "remove_storage"],
       Event.fsUnlink "/var/lib/blockhost/vms/web01.qcow2",
       Event.fsRmtree "/var/lib/blockhost/cloud-init/web01",
       Event.releaseIp "10.0.0.5", Event.releaseIpv6 "fd00::5",
       Event.markNftFailed 7] ∧
    occursBefore (Event.releaseIp "10.0.0.5") (Event.releaseIpv6 "fd00::5")
      (cleanup_partial_alloc ledgerFullWeb01 oracleAllOk fsFullWeb01 drainedStore).events ∧
    ¬ occursBefore (Event.releaseIpv6 "fd00::5") (Event.releaseIp "10.0.0.5")
      (cleanup_partial_alloc ledgerFullWeb01 oracleAllOk fsFullWeb01 drainedStore).events := by
  refine ⟨by decide, by decide, by decide⟩

/-- C2 (amended): compensation runs in the fixed source order — domain
destroy, domain undefine with storage removal, disk overlay unlink,
cloud-init directory removal, IPv4 release, IPv6 release, NFT
mark-as-failed — and the list of attempted compensating actions is
independent of the success or failure of any individual action (each block
is its own `try/except`), hence independent of the whole oracle and of the
store. -/
theorem C2_compensation_order (L : Ledger) (o o2 : ExtOracle) (fs : FS) (st st2 : Store)
    (d c ip a : String) (n : Nat)
    (hdom : L.domainDefined = true)
    (hd : L.diskPath = some d) (hmf : fs.files.contains d = true)
    (hc : L.cloudInitDir = some c) (hmd : fs.dirs.contains c = true)
    (hip : L.ip = some ip) (ha : L.ipv6 = some a)
    (hn : L.nftTokenId = some n) (hnz : n ≠ 0) (hdb : L.hasDb = true) :
    (cleanup_partial_alloc L o fs st).events =
      [Event.gatewayCall "virsh-destroy" [L.name],
       Event.gatewayCall "virsh-undefine" [L.name, "remove_storage"],
       Event.fsUnlink d, Event.fsRmtree c,
       Event.releaseIp ip, Event.releaseIpv6 a, Event.markNftFailed n] ∧
    (cleanup_partial_alloc L o fs st).events = (cleanup_partial_alloc L o2 fs st2).events := by
  refine ⟨cleanup_partial_events_full L o fs st d c ip a n hdom hd hmf hc hmd hip ha hn hnz hdb, ?_⟩
  rw [cleanup_partial_events_full L o fs st d c ip a n hdom hd hmf hc hmd hip ha hn hnz hdb,
    cleanup_partial_events_full L o2 fs st2 d c ip a n hdom hd hmf hc hmd hip ha hn hnz hdb]

/-- C2 witness: the amended order theorem applied to the populated `web01`
ledger, with one oracle in which everything succeeds and one in which every
release fails — the attempted trace is identical. -/
theorem C2_compensation_order_witness :
    (cleanup_partial_alloc ledgerFullWeb01
        { oracleAllOk with unlinkDiskOk := false, rmtreeOk := false, releaseIpOk := false
                           releaseIpv6Ok := false, markNftOk := false }
        fsFullWeb01 poolStore).events =
      [Event.gatewayCall "virsh-destroy" ["web01"],
       Event.gatewayCall "virsh-undefine" ["web01", "remove_storage"],
       Event.fsUnlink "/var/lib/blockhost/vms/web01.qcow2",
       Event.fsRmtree "/var/lib/blockhost/cloud-init/web01",
       Event.releaseIp "10.0.0.5", Event.releaseIpv6 "fd00::5",
       Event.markNftFailed 7] := by
  have h := C2_compensation_order ledgerFullWeb01
    { oracleAllOk with unlinkDiskOk := false, rmtreeOk := false, releaseIpOk := false
                       releaseIpv6Ok := false, markNftOk := false }
    oracleAllOk fsFullWeb01 poolStore drainedStore
    "/var/lib/blockhost/vms/web01.qcow2" "/var/lib/blockhost/cloud-init/web01"
    "10.0.0.5" "fd00::5" 7
    (by decide) (by decide) (by decide) (by decide) (by decide)
    (by decide) (by decide) (by decide) (by decide) (by decide)
  exact h.1

/-- C1 counterexample: when a release fails during compensation, nothing is
logged about it. With the full `web01` ledger and an oracle in which
`db.release_ip` raises, the IPv4 address stays out of the pool (the release
really failed), yet the cleanup stderr is exactly the one unconditional
header line — identical to the stderr of a run in which every release
succeeds. The failed release is therefore not logged, refuting the claim's
"except resources whose own release failed, which are logged". -/
theorem C1_counterexample :
    "10.0.0.5" ∉ (cleanup_partial_alloc ledgerFullWeb01 { oracleAllOk with releaseIpOk := false }
        fsFullWeb01 drainedStore).store.freeIps ∧
    (cleanup_partial_alloc ledgerFullWeb01 { oracleAllOk with releaseIpOk := false }
        fsFullWeb01 drainedStore).errLog =
      ["[vm-create] Cleaning up partial allocation for web01..."] ∧
    (cleanup_partial_alloc ledgerFullWeb01 { oracleAllOk with releaseIpOk := false }
        fsFullWeb01 drainedStore).errLog =
      (cleanup_partial_alloc ledgerFullWeb01 oracleAllOk fsFullWeb01 drainedStore).errLog := by
  refine ⟨by decide, by decide, by decide⟩

/-- C1 (amended): on any failure, every resource present in the Allocation
Ledger whose own release succeeds is released or removed before the process
exits (IPv4 and IPv6 back in their pools, NFT reservation marked failed,
disk overlay and cloud-init directory gone, domain destroy/undefine
issued); a resource whose own release fails is skipped silently — the only
stderr line the compensation ever emits is the fixed header, so failed
releases are NOT logged. In particular, when `virsh-start` reports
`ok=false`, the disk overlay file is removed, the IPv4 address is released,
and the final JSON has status error with exit code 1. -/
theorem C1_compensation_releases (L : Ledger) (o : ExtOracle) (fs : FS) (st : Store)
    (hfnd : fs.files.Nodup) (hdnd : fs.dirs.Nodup) :
    (∀ ip, L.ip = some ip → L.hasDb = true → o.releaseIpOk = true →
      ip ∈ (cleanup_partial_alloc L o fs st).store.freeIps) ∧
    (∀ a, L.ipv6 = some a → L.hasDb = true → o.releaseIpv6Ok = true →
      a ∈ (cleanup_partial_alloc L o fs st).store.freeIpv6s) ∧
    (∀ n, L.nftTokenId = some n → n ≠ 0 → L.hasDb = true → o.markNftOk = true →
      n ∈ (cleanup_partial_alloc L o fs st).store.failedNfts) ∧
    (∀ d, L.diskPath = some d → o.unlinkDiskOk = true →
      d ∉ (cleanup_partial_alloc L o fs st).fs.files) ∧
    (∀ c, L.cloudInitDir = some c → o.rmtreeOk = true →
      c ∉ (cleanup_partial_alloc L o fs st).fs.dirs) ∧
    (L.domainDefined = true →
      Event.gatewayCall "virsh-destroy" [L.name] ∈ (cleanup_partial_alloc L o fs st).events ∧
      Event.gatewayCall "virsh-undefine" [L.name, "remove_storage"] ∈
        (cleanup_partial_alloc L o fs st).events) ∧
    (cleanup_partial_alloc L o fs st).errLog =
      ["[vm-create] Cleaning up partial allocation for " ++ L.name ++ "..."] ∧
    ((create_vm argsWeb01Apply envStd { oracleAllOk with startOk := false }
        { files := [], dirs := [] } poolStore).exitCode = 1 ∧
     (create_vm argsWeb01Apply envStd { oracleAllOk with startOk := false }
        { files := [], dirs := [] } poolStore).output = Output.errJson "virsh-start failed" ∧
     "/var/lib/blockhost/vms/web01.qcow2" ∉
       (create_vm argsWeb01Apply envStd { oracleAllOk with startOk := false }
          { files := [], dirs := [] } poolStore).fs.files ∧
     "10.0.0.5" ∈ (create_vm argsWeb01Apply envStd { oracleAllOk with startOk := false }
          { files := [], dirs := [] } poolStore).store.freeIps) := by
  refine ⟨?_, ?_, ?_, ?_, ?_, ?_, cleanup_partial_errLog L o fs st,
    by decide, by decide, by decide, by decide⟩
  · exact fun ip hip hdb hok => cleanup_partial_ip_mem L o fs st ip hip hdb hok
  · exact fun a ha hdb hok => cleanup_partial_ipv6_mem L o fs st a ha hdb hok
  · exact fun n hn hnz hdb hok => cleanup_partial_nft_mem L o fs st n hn hnz hdb hok
  · exact fun d hd hok => cleanup_partial_disk_not_mem L o fs st d hd hok hfnd
  · exact fun c hc hok => cleanup_partial_ci_not_mem L o fs st c hc hok hdnd
  · exact fun hdom => cleanup_partial_domain_events L o fs st hdom

/-- C1 witness: the amended compensation theorem applied to the populated
`web01` ledger with the all-success oracle — the released IPv4 is back in
the pool and the disk overlay is gone. -/
theorem C1_compensation_releases_witness :
    fsFullWeb01.files.Nodup ∧
    "10.0.0.5" ∈ (cleanup_partial_alloc ledgerFullWeb01 oracleAllOk fsFullWeb01
      drainedStore).store.freeIps ∧
    "/var/lib/blockhost/vms/web01.qcow2" ∉ (cleanup_partial_alloc ledgerFullWeb01 oracleAllOk
      fsFullWeb01 drainedStore).fs.files := by
  have h := C1_compensation_releases ledgerFullWeb01 oracleAllOk fsFullWeb01 drainedStore
    (by decide) (by decide)
  exact ⟨by decide, h.1 "10.0.0.5" (by decide) (by decide) (by decide),
    h.2.2.2.1 "/var/lib/blockhost/vms/web01.qcow2" (by decide) (by decide)⟩

/-- C6: under every sequence of lifecycle operations (create, gc, resume)
against any starting store, one further operation never changes the status
of an existing record: in particular no record ever steps from `active`
directly to `destroyed`, and no `destroyed` record ever leaves `destroyed`.
(gc and resume are stubs that leave the store untouched; create at most
appends one new record and compensation never rewrites records.) -/
theorem C6_status_state_machine (s0 : Store) (ops : List LifecycleOp) (op : LifecycleOp)
    (i : Nat) (r r2 : VmRecord)
    (hr : (runOps s0 ops).vms[i]? = some r)
    (hr2 : (applyOp op (runOps s0 ops)).vms[i]? = some r2) :
    r2.status = r.status ∧
    (r.status = VmStatus.destroyed → r2.status = VmStatus.destroyed) ∧
    ¬(r.status = VmStatus.active ∧ r2.status = VmStatus.destroyed) := by
  have heq : r2 = r := by
    rcases applyOp_vms op (runOps s0 ops) with he | ⟨x, he⟩
    · rw [he, hr] at hr2
      exact (Option.some.inj hr2).symm
    · rw [he] at hr2
      have hi : i < (runOps s0 ops).vms.length := (List.getElem?_eq_some.mp hr).1
      rw [List.getElem?_append_left hi, hr] at hr2
      exact (Option.some.inj hr2).symm

  subst heq
  refine ⟨rfl, fun h => h, ?_⟩
  rintro ⟨ha, hd⟩
  rw [ha] at hd
  exact VmStatus.noConfusion hd

/-- C6 witness: the invariant applied after the operation sequence
[create web01 (dry run), gc --execute] followed by one resume call, at the
record of the `activeStore`. -/
theorem C6_status_state_machine_witness :
    (runOps activeStore
      [LifecycleOp.createOp argsWeb01Dry envStd oracleAllOk { files := [], dirs := [] },
       LifecycleOp.gcOp { execute := true, suspendOnly := false, destroyOnly := false
                          graceDays := none } 100]).vms[0]? = some web01Active ∧
    ¬(web01Active.status = VmStatus.active ∧ web01Active.status = VmStatus.destroyed) := by
  refine ⟨by decide, ?_⟩
  exact (C6_status_state_machine activeStore
    [LifecycleOp.createOp argsWeb01Dry envStd oracleAllOk { files := [], dirs := [] },
     LifecycleOp.gcOp { execute := true, suspendOnly := false, destroyOnly := false
                        graceDays := none } 100]
    (LifecycleOp.resumeOp { name := "web01", extendDays := none, dryRun := false })
    0 web01Active web01Active (by decide) (by decide)).2.2

/-- C8: a dry run (`apply=false`) that passes the guards performs the pool
allocations of steps 2-4, prints the would-be success JSON (allocated ip,
vmid = name), exits 0, leaves the filesystem untouched and registers no VM
record — the cloud-init/disk/domain steps are never entered (the event
trace holds only allocation events: no gateway call, no filesystem write,
no registration) — and the allocations remain held after exit (the IPv4
pool afterward is exactly the rest of the pool, without the allocated
address). -/
theorem C8_dry_run_allocates_and_stops (args : CreateArgs) (env : CreateEnv)
    (o : ExtOracle) (fs : FS) (st : Store) (ip : String) (restIps : List String)
    (hap : args.apply = false)
    (hdb : env.dbConfigOk = true)
    (ht : env.templateExists = true)
    (hdisk : fs.files.contains (VM_DISK_DIR ++ "/" ++ args.name ++ ".qcow2") = false)
    (hvm : ∀ r, get_vm st args.name = some r → r.status = VmStatus.destroyed)
    (hpool : st.freeIps = ip :: restIps)
    (hnd : st.freeIps.Nodup) :
    (create_vm args env o fs st).exitCode = 0 ∧
    (∃ ipv6, (create_vm args env o fs st).output =
      Output.okJson args.name ip ipv6 args.name st.nextNftId USERNAME) ∧
    (create_vm args env o fs st).fs = fs ∧
    (create_vm args env o fs st).store.vms = st.vms ∧
    (create_vm args env o fs st).store.freeIps = restIps ∧
    ip ∉ (create_vm args env o fs st).store.freeIps ∧
    (∀ e ∈ (create_vm args env o fs st).events,
      (∃ x, e = Event.allocIp x) ∨ (∃ x, e = Event.allocIpv6 x) ∨
      (∃ x, e = Event.reserveNft x)) := by
  have hnip : ip ∉ restIps := by
    rw [hpool] at hnd
    exact (List.nodup_cons.mp hnd).1
  have key := create_vm_alloc_dry args env o fs st ip restIps hap hpool hnip
  unfold create_vm
  rw [hdb, ht]
  dsimp only
  rw [hdisk]
  cases hg : get_vm st args.name with
  | none => exact key
  | some r =>
      dsimp only
      have hrd := hvm r hg
      rw [if_neg (by simp [hrd] : ¬(r.status ≠ VmStatus.destroyed))]
      exact key

/-- C8 witness: the spec scenario — fresh pool with `10.0.0.5` next, dry-run
create of `web01` returns ok with that ip and the pool afterward no longer
offers it. -/
theorem C8_dry_run_allocates_and_stops_witness :
    (create_vm argsWeb01Dry envStd oracleAllOk { files := [], dirs := [] }
      poolStore).exitCode = 0 ∧
    (∃ ipv6, (create_vm argsWeb01Dry envStd oracleAllOk { files := [], dirs := [] }
      poolStore).output = Output.okJson "web01" "10.0.0.5" ipv6 "web01" 7 "user") ∧
    "10.0.0.5" ∉ (create_vm argsWeb01Dry envStd oracleAllOk { files := [], dirs := [] }
      poolStore).store.freeIps := by
  have h := C8_dry_run_allocates_and_stops argsWeb01Dry envStd oracleAllOk
    { files := [], dirs := [] } poolStore "10.0.0.5" ["10.0.0.6"]
    (by decide) (by decide) (by decide) (by decide)
    (by intro r hr; simp [get_vm, poolStore] at hr) (by decide) (by decide)
  exact ⟨h.1, h.2.1, h.2.2.2.2.2.1⟩

/-- C9: when the disk overlay for the requested name already exists, or a
non-destroyed record with that name is in the store, `vm-create` fails with
an error JSON and exit 1 before any pool allocation, any artifact creation
and any gateway action: the event trace is empty and neither the store nor
the filesystem changes. -/
theorem C9_collision_fails_fast (args : CreateArgs) (env : CreateEnv) (o : ExtOracle)
    (fs : FS) (st : Store)
    (hcol : fs.files.contains (VM_DISK_DIR ++ "/" ++ args.name ++ ".qcow2") = true ∨
            ∃ r, get_vm st args.name = some r ∧ r.status ≠ VmStatus.destroyed) :
    (create_vm args env o fs st).exitCode = 1 ∧
    (∃ m, (create_vm args env o fs st).output = Output.errJson m) ∧
    (create_vm args env o fs st).events = [] ∧
    (create_vm args env o fs st).store = st ∧
    (create_vm args env o fs st).fs = fs := by
  unfold create_vm
  dsimp only
  by_cases h1 : env.dbConfigOk
  case neg =>
    simp only [Bool.not_eq_true] at h1
    rw [h1]
    exact ⟨rfl, ⟨_, rfl⟩, rfl, rfl, rfl⟩
  case pos =>
    rw [h1]
    by_cases h2 : env.templateExists
    case neg =>
      simp only [Bool.not_eq_true] at h2
      rw [h2]
      exact ⟨rfl, ⟨_, rfl⟩, rfl, rfl, rfl⟩
    case pos =>
      rw [h2]
      by_cases h3 : fs.files.contains (VM_DISK_DIR ++ "/" ++ args.name ++ ".qcow2") = true
      · rw [h3]
        exact ⟨rfl, ⟨_, rfl⟩, rfl, rfl, rfl⟩
      · rcases hcol with hd | ⟨r, hg, hne⟩
        · exact absurd hd h3
        · simp only [Bool.not_eq_true] at h3
          rw [h3, hg]
          dsimp only
          rw [if_pos hne]
          exact ⟨rfl, ⟨_, rfl⟩, rfl, rfl, rfl⟩

/-- C9 witness: creating `web01` against a store already holding an active
`web01` record fails fast with no events and an untouched store. -/
theorem C9_collision_fails_fast_witness :
    (create_vm argsWeb01Apply envStd oracleAllOk { files := [], dirs := [] }
      activeStore).exitCode = 1 ∧
    (create_vm argsWeb01Apply envStd oracleAllOk { files := [], dirs := [] }
      activeStore).events = [] ∧
    (create_vm argsWeb01Apply envStd oracleAllOk { files := [], dirs := [] }
      activeStore).store = activeStore := by
  have h := C9_collision_fails_fast argsWeb01Apply envStd oracleAllOk
    { files := [], dirs := [] } activeStore
    (Or.inr ⟨web01Active, by decide, by decide⟩)
  exact ⟨h.1, h.2.2.1, h.2.2.2.1⟩

/-- C10 counterexample: the claim says the descriptor file remains on disk
whenever the saga fails after it was written, listing registration among
those failure points. But the code unlinks the XML file immediately after a
successful `virsh-start`, before registration: in a run failing exactly at
database registration the process exits with an error and the descriptor
file is already gone. -/
theorem C10_counterexample :
    (create_vm argsWeb01Apply envStd { oracleAllOk with registerOk := false }
      { files := [], dirs := [] } poolStore).exitCode = 1 ∧
    (create_vm argsWeb01Apply envStd { oracleAllOk with registerOk := false }
      { files := [], dirs := [] } poolStore).output =
      Output.errJson "Database registration failed" ∧
    "/var/lib/blockhost/vms/web01.xml" ∉
      (create_vm argsWeb01Apply envStd { oracleAllOk with registerOk := false }
        { files := [], dirs := [] } poolStore).fs.files := by
  refine ⟨by decide, by decide, by decide⟩

/-- C10 (amended): in the apply tail the descriptor XML is written before
`virsh-define`; compensation never deletes it, so if the saga fails at
define or at start the file is still on disk at the error exit; the file is
deleted exactly when define and start both succeed — immediately, before
route attach and registration — so a failure at registration exits with the
file already gone. (The path-disjointness hypotheses hold for every actual
VM name and are discharged concretely in the witness; failure at route
attach cannot occur: the route call is best-effort.) -/
theorem C10_descriptor_file_lifetime (args : CreateArgs) (env : CreateEnv)
    (o : ExtOracle) (ip ipv6 : String) (nft : Nat) (L : Ledger) (fs : FS) (st : Store)
    (evs : List Event)
    (hrender : o.renderOk = true) (hcl : o.cloudLocaldsOk = true) (hq : o.qemuImgOk = true)
    (hnedisk : VM_DISK_DIR ++ "/" ++ args.name ++ ".xml" ≠
      VM_DISK_DIR ++ "/" ++ args.name ++ ".qcow2")
    (hneud : VM_DISK_DIR ++ "/" ++ args.name ++ ".xml" ≠
      CLOUD_INIT_DIR ++ "/" ++ args.name ++ "/user-data")
    (hneiso : VM_DISK_DIR ++ "/" ++ args.name ++ ".xml" ≠
      CLOUD_INIT_DIR ++ "/" ++ args.name ++ "/cidata.iso")
    (hpp : strStarts (VM_DISK_DIR ++ "/" ++ args.name ++ ".xml")
      (CLOUD_INIT_DIR ++ "/" ++ args.name ++ "/") = false)
    (hxml : VM_DISK_DIR ++ "/" ++ args.name ++ ".xml" ∉ fs.files) :
    ((o.defineOk = false ∨ o.startOk = false) →
      (create_vm_apply args env o ip ipv6 nft L fs st evs).exitCode = 1 ∧
      VM_DISK_DIR ++ "/" ++ args.name ++ ".xml" ∈
        (create_vm_apply args env o ip ipv6 nft L fs st evs).fs.files) ∧
    (o.defineOk = true → o.startOk = true →
      VM_DISK_DIR ++ "/" ++ args.name ++ ".xml" ∉
        (create_vm_apply args env o ip ipv6 nft L fs st evs).fs.files) := by
  unfold create_vm_apply
  dsimp only
  simp only [hrender, hcl, hq, Bool.not_true, Bool.and_false, Bool.false_eq_true,
    if_false]
  constructor
  · intro hfail
    by_cases hdf : o.defineOk
    case neg =>
      simp only [Bool.not_eq_true] at hdf
      simp only [hdf, Bool.not_false, if_true]
      refine ⟨rfl, ?_⟩
      refine cleanup_partial_files_mem _ _ _ _ _ (by simp)
        (fun d hd => (Option.some.inj hd) ▸ hnedisk)
        (fun c hc => (Option.some.inj hc) ▸ hpp)
    case pos =>
      rw [hdf] at hfail ⊢
      rcases hfail with hfd | hst
      · exact absurd hfd (by simp)
      · simp only [Bool.not_true, Bool.false_eq_true, if_false, hst, Bool.not_false,
          if_true]
        refine ⟨rfl, ?_⟩
        refine cleanup_partial_files_mem _ _ _ _ _ (by simp)
          (fun d hd => (Option.some.inj hd) ▸ hnedisk)
          (fun c hc => (Option.some.inj hc) ▸ hpp)
  · intro hdf hst
    simp only [hdf, hst, Bool.not_true, Bool.false_eq_true, if_false]
    have hnotin : VM_DISK_DIR ++ "/" ++ args.name ++ ".xml" ∉
        ((fs.files ++ [CLOUD_INIT_DIR ++ "/" ++ args.name ++ "/user-data"]) ++
          [CLOUD_INIT_DIR ++ "/" ++ args.name ++ "/cidata.iso"]) ++
          [VM_DISK_DIR ++ "/" ++ args.name ++ ".qcow2"] := by
      simp only [List.mem_append, List.mem_singleton]
      rintro (((h | h) | h) | h)
      · exact hxml h
      · exact hneud h
      · exact hneiso h
      · exact hnedisk h
    have herase : ((((fs.files ++ [CLOUD_INIT_DIR ++ "/" ++ args.name ++ "/user-data"]) ++
          [CLOUD_INIT_DIR ++ "/" ++ args.name ++ "/cidata.iso"]) ++
          [VM_DISK_DIR ++ "/" ++ args.name ++ ".qcow2"]) ++
          [VM_DISK_DIR ++ "/" ++ args.name ++ ".xml"]).erase
            (VM_DISK_DIR ++ "/" ++ args.name ++ ".xml") =
        ((fs.files ++ [CLOUD_INIT_DIR ++ "/" ++ args.name ++ "/user-data"]) ++
          [CLOUD_INIT_DIR ++ "/" ++ args.name ++ "/cidata.iso"]) ++
          [VM_DISK_DIR ++ "/" ++ args.name ++ ".qcow2"] := by
      rw [List.erase_append_right _ hnotin, List.erase_cons_head, List.append_nil]
    by_cases hreg : o.registerOk
    case pos =>
      simp only [hreg, Bool.not_true, Bool.false_eq_true, if_false]
      intro hmem
      rw [herase] at hmem
      exact hnotin hmem
    case neg =>
      simp only [Bool.not_eq_true] at hreg
      simp only [hreg, Bool.not_false, if_true]
      intro hmem
      have hsub := cleanup_partial_files_sub _ _ _ _ _ hmem
      rw [herase] at hsub
      exact hnotin hsub

/-- C10 witness: the lifetime theorem applied to `web01` with define
succeeding and start failing — the descriptor file is on disk at the error
exit. -/
theorem C10_descriptor_file_lifetime_witness :
    (create_vm_apply argsWeb01Apply envStd { oracleAllOk with startOk := false }
      "10.0.0.5" "" 7
      { name := "web01", hasDb := true, ip := some "10.0.0.5", ipv6 := none
        nftTokenId := some 7, cloudInitDir := none, diskPath := none
        domainDefined := false }
      { files := [], dirs := [] } drainedStore []).exitCode = 1 ∧
    "/var/lib/blockhost/vms/web01.xml" ∈
      (create_vm_apply argsWeb01Apply envStd { oracleAllOk with startOk := false }
        "10.0.0.5" "" 7
        { name := "web01", hasDb := true, ip := some "10.0.0.5", ipv6 := none
          nftTokenId := some 7, cloudInitDir := none, diskPath := none
          domainDefined := false }
        { files := [], dirs := [] } drainedStore []).fs.files := by
  have h := C10_descriptor_file_lifetime argsWeb01Apply envStd
    { oracleAllOk with startOk := false } "10.0.0.5" "" 7
    { name := "web01", hasDb := true, ip := some "10.0.0.5", ipv6 := none
      nftTokenId := some 7, cloudInitDir := none, diskPath := none
      domainDefined := false }
    { files := [], dirs := [] } drainedStore []
    (by decide) (by decide) (by decide) (by decide) (by decide) (by decide)
    (by decide) (by decide)
  exact h.1 (Or.inr (by decide))

end Blockhost
